import Mathlib

/-!
Verification of the pump/compressor dashboard (`app.py`).

The development shallowly embeds the three core functions of the source —
`generate_dummy_data` (the row-wise derivation of `Efficiency` and
`Critical Flag`), `explain_efficiency`, and `compressor_efficiency_prompt` —
together with the "Calculate Efficiency" button handler for manual input.

Modelling conventions:
* Python floats are idealised as rationals (`ℚ`); the only place where the
  distinction matters is numpy's division by zero, which yields `inf`,
  `-inf` or `nan` instead of raising, and is modelled explicitly by
  `NpFloat` and `npDiv`.
* Timestamps are opaque string tokens; `str(...)` of a timestamp is the
  token itself.
* Python's `str.lower` is modelled by `pyLower` (ASCII lowering, matching
  `String.toLower` — all keywords tested by the engine are ASCII).
* `f"{x:.2f}"` is modelled by `fmt2`; ties in decimal rounding are not
  exactly representable in binary floats, so the tie-breaking convention is
  immaterial and round-half-up is used.
* The incidental `print(...)` calls in the prompt engine are side effects
  outside the returned value and are not modelled.
-/

namespace PumpDemo

/-- A numpy float64 value as far as this program can observe it: either a
finite value (idealised as a rational) or one of the non-finite values
`inf`, `-inf`, `nan` that numpy produces on division by zero. -/
inductive NpFloat where
  | finite (q : ℚ) : NpFloat
  | posInf : NpFloat
  | negInf : NpFloat
  | nan : NpFloat
deriving DecidableEq, Repr

/-- `x < c` for an `NpFloat` `x` and finite `c` (IEEE semantics:
`inf < c` and `nan < c` are false, `-inf < c` is true). -/
def NpFloat.ltc : NpFloat → ℚ → Bool
  | .finite q, c => decide (q < c)
  | .posInf, _ => false
  | .negInf, _ => true
  | .nan, _ => false

/-- `x > c` for an `NpFloat` `x` and finite `c` (IEEE semantics). -/
def NpFloat.gtc : NpFloat → ℚ → Bool
  | .finite q, c => decide (c < q)
  | .posInf, _ => true
  | .negInf, _ => false
  | .nan, _ => false

/-- numpy float division of finite operands: ordinary division when the
divisor is nonzero; `inf`, `-inf` or `nan` (by the sign of the dividend)
when it is zero.  No exception is raised either way. -/
def npDiv (a b : ℚ) : NpFloat :=
  if b ≠ 0 then .finite (a / b)
  else if 0 < a then .posInf
  else if a < 0 then .negInf
  else .nan

/-- The raw sensor fields of one row produced by the random draws in
`generate_dummy_data` (the random generator itself is a black box; a raw
reading is an arbitrary draw). -/
structure RawReading where
  timestamp : String
  inlet_pressure : ℚ
  outlet_pressure : ℚ
  inlet_temp : ℚ
  outlet_temp : ℚ
  flow_rate : ℚ
  power : ℚ
deriving DecidableEq, Repr

/-- One fully derived row of the dataframe returned by
`generate_dummy_data`: the raw fields plus the derived `Efficiency` and
`Critical Flag` columns. -/
structure Reading where
  timestamp : String
  inlet_pressure : ℚ
  outlet_pressure : ℚ
  inlet_temp : ℚ
  outlet_temp : ℚ
  flow_rate : ℚ
  power : ℚ
  efficiency : NpFloat
  criticalFlag : String
deriving DecidableEq, Repr

/-- The `Efficiency` column:
`(flow_rate * (outlet_pressure - inlet_pressure)) / power_consumed`,
an elementwise numpy division with no zero guard. -/
def rowEfficiency (r : RawReading) : NpFloat :=
  npDiv (r.flow_rate * (r.outlet_pressure - r.inlet_pressure)) r.power

/-- The `Critical Flag` column:
`np.where(Efficiency < 0.3 | Inlet Pressure < 2.2 | Power > 60, "CRITICAL", "OK")`. -/
def criticalFlagOf (eff : NpFloat) (inletP pw : ℚ) : String :=
  if eff.ltc (3/10) = true ∨ inletP < 22/10 ∨ pw > 60 then "CRITICAL" else "OK"

/-- Row-wise content of `generate_dummy_data`: derive `Efficiency` and
`Critical Flag` from the raw sensor fields. -/
def generateRow (r : RawReading) : Reading :=
  { timestamp := r.timestamp
    inlet_pressure := r.inlet_pressure
    outlet_pressure := r.outlet_pressure
    inlet_temp := r.inlet_temp
    outlet_temp := r.outlet_temp
    flow_rate := r.flow_rate
    power := r.power
    efficiency := rowEfficiency r
    criticalFlag := criticalFlagOf (rowEfficiency r) r.inlet_pressure r.power }

/-- `generate_dummy_data`, with the random draws abstracted into the input
list of raw rows (most-recent-first, matching generation order). -/
def generate_dummy_data (raws : List RawReading) : List Reading :=
  raws.map generateRow

/-- `explain_efficiency(row)`: the function reads only `row['Efficiency']`
(it is applied both to dataframe rows and, in the manual-input path, to the
one-key dict `{'Efficiency': efficiency}`), so it is embedded as a function
of the efficiency value. -/
def explain_efficiency (eff : NpFloat) : String :=
  if eff.ltc (3/10) then "CRITICAL: Very low efficiency. Immediate investigation required."
  else if eff.ltc (1/2) then "Low efficiency. Possible issues with pressure delta or power."
  else if eff.gtc 2 then "High efficiency. System optimal."
  else "Moderate efficiency. Acceptable range."

/-- The `LLM Explanation` column: `data.apply(explain_efficiency, axis=1)`
hands each row to `explain_efficiency`, which reads its `Efficiency` field. -/
def readingExplanation (r : Reading) : String :=
  explain_efficiency r.efficiency

/-- ASCII lowering of one character, as both Python's `str.lower` and
`Char.toLower` do on the basic latin range. -/
def lowerChar (c : Char) : Char := c.toLower

/-- Python's `question.lower()` (list-based so that it reduces; provably
equal to `String.toLower`, see `pyLower_eq_toLower`). -/
def pyLower (s : String) : String := ⟨s.data.map lowerChar⟩

/-- Does the character list start with the pattern? (helper for `pyIn`). -/
def listStarts : List Char → List Char → Bool
  | [], _ => true
  | _ :: _, [] => false
  | p :: ps, c :: cs => p == c && listStarts ps cs

/-- Does the character list contain the pattern as a contiguous run? -/
def listHasSub (pat : List Char) : List Char → Bool
  | [] => pat.isEmpty
  | c :: cs => listStarts pat (c :: cs) || listHasSub pat cs

/-- Python's substring test `sub in s`. -/
def pyIn (sub s : String) : Bool := listHasSub sub.data s.data

/-- `str(n)` for a natural number. -/
def natStr (n : ℕ) : String := toString n

/-- `f"{x:.2f}"` for a finite float: sign from the value, magnitude rounded
to hundredths and printed with two decimals. -/
def fmt2 (x : ℚ) : String :=
  let n : ℤ := round (x * 100)
  let sign := if x < 0 then "-" else ""
  let m := n.natAbs
  sign ++ natStr (m / 100) ++ "." ++ (if m % 100 < 10 then "0" else "") ++ natStr (m % 100)

/-- `f"{x:.2f}"` on a possibly non-finite float (`"inf"`, `"-inf"`, `"nan"`). -/
def NpFloat.fmt2 : NpFloat → String
  | .finite q => PumpDemo.fmt2 q
  | .posInf => "inf"
  | .negInf => "-inf"
  | .nan => "nan"

/-- Python's `str(...)` of a list of (opaque) timestamps. -/
def pyListStr (l : List String) : String :=
  "[" ++ String.intercalate ", " l ++ "]"

/-- The body of `compressor_efficiency_prompt` after `q = question.lower()`:
the ordered `if`/`elif` chain over the lowercased question. -/
def promptBody (q : String) (row : Reading) (df : List Reading) : String :=
  if pyIn "efficiency" q && pyIn "what" q then
    "The current efficiency is " ++ row.efficiency.fmt2 ++ "."
  else if pyIn "why" q || pyIn "cause" q then
    if row.efficiency.ltc (1/2) then
      "Efficiency is low likely due to small pressure difference (" ++
        fmt2 row.outlet_pressure ++ "-" ++ fmt2 row.inlet_pressure ++
        ") or high power usage (" ++ fmt2 row.power ++ " kW)."
    else
      "Efficiency is within normal range. No cause for concern."
  else if pyIn "first" q then
    let first10row := df.take 50
    let first10 := first10row.any (fun r => r.criticalFlag == "CRITICAL")
    if first10 then
      "The pump/compressor status was critical at " ++
        pyListStr ((first10row.filter (fun r => r.criticalFlag == "CRITICAL")).map Reading.timestamp) ++
        " from top 50 row."
    else
      "Not found any critical in the data for pump/compressor."
  else if pyIn "last" q then
    let last10row := df.drop (df.length - 50)
    let last10 := last10row.any (fun r => r.criticalFlag == "CRITICAL")
    if last10 then
      "The pump/compressor status was critical at " ++
        pyListStr ((last10row.filter (fun r => r.criticalFlag == "CRITICAL")).map Reading.timestamp) ++
        " from last 50 row."
    else
      "Not found any critical in the data for pump/compressor."
  else if pyIn "pressure" q then
    "Inlet Pressure: " ++ fmt2 row.inlet_pressure ++ " bar, Outlet Pressure: " ++
      fmt2 row.outlet_pressure ++ " bar."
  else if pyIn "flow" q then
    "Flow rate is " ++ fmt2 row.flow_rate ++ " m3/h."
  else if pyIn "power" q then
    "Power consumption is " ++ fmt2 row.power ++ " kW."
  else if pyIn "time" q then
    "The record timestamp is " ++ row.timestamp ++ "."
  else if pyIn "critical" q || pyIn "alert" q then
    "System status: " ++ row.criticalFlag ++ "."
  else if pyIn "pump" q || pyIn "compressor" q then
    "This system operates as a " ++ (if row.efficiency.ltc 1 then "pump" else "compressor") ++ "."
  else if pyIn "improve" q then
    "Reduce power usage or increase pressure delta to improve efficiency."
  else
    "Please ask about efficiency, pressure, flow, power, or status."

/-- `compressor_efficiency_prompt(question, row, df)`: lower-case the
question, then run the `if`/`elif` chain. -/
def compressor_efficiency_prompt (question : String) (row : Reading) (df : List Reading) : String :=
  promptBody (pyLower question) row df

/-- The manual-input efficiency:
`(flow * (outlet_p - inlet_p)) / power if power else 0`. -/
def manualEfficiency (inlet_p outlet_p flow pw : ℚ) : ℚ :=
  if pw ≠ 0 then flow * (outlet_p - inlet_p) / pw else 0

/-- The manual-input status: `"CRITICAL" if efficiency < 0.3 else "OK"`. -/
def manualFlag (efficiency : ℚ) : String :=
  if efficiency < 3/10 then "CRITICAL" else "OK"

/-- The "Calculate Efficiency" button handler: the formatted efficiency,
the flag, and the explanation written out by the two `st.write` calls. -/
def calculateEfficiency (inlet_p outlet_p flow pw : ℚ) : String × String × String :=
  let efficiency := manualEfficiency inlet_p outlet_p flow pw
  (fmt2 efficiency, manualFlag efficiency, explain_efficiency (.finite efficiency))

/-- Modelled from the spec (§3 status invariant), for comparison with the
code's manual-input status: `CRITICAL` iff
`efficiency < 0.3 OR inlet_pressure < 2.2 OR power > 60`, else `OK`. -/
def specStatus (efficiency inletP pw : ℚ) : String :=
  if efficiency < 3/10 ∨ inletP < 22/10 ∨ pw > 60 then "CRITICAL" else "OK"

/-- A fixed sample row used to instantiate witnesses. -/
def sampleReading : Reading :=
  { timestamp := "2026-01-01 00:00:00"
    inlet_pressure := 5/2
    outlet_pressure := 6
    inlet_temp := 25
    outlet_temp := 80
    flow_rate := 10
    power := 50
    efficiency := .finite (7/10)
    criticalFlag := "OK" }

/-- A second sample row, differing from `sampleReading` in every sensor field. -/
def sampleReading2 : Reading :=
  { timestamp := "2026-01-01 00:10:00"
    inlet_pressure := 2
    outlet_pressure := 7
    inlet_temp := 26
    outlet_temp := 81
    flow_rate := 11
    power := 61
    efficiency := .finite (1/10)
    criticalFlag := "CRITICAL" }

/-- Does the lowercased question satisfy at least one of the twelve keyword
predicates tested by the engine (in the guard forms the code tests)? -/
def matchesSomeRule (q : String) : Bool :=
  (pyIn "efficiency" q && pyIn "what" q) || pyIn "why" q || pyIn "cause" q ||
    pyIn "first" q || pyIn "last" q || pyIn "pressure" q || pyIn "flow" q ||
    pyIn "power" q || pyIn "time" q || pyIn "critical" q || pyIn "alert" q ||
    pyIn "pump" q || pyIn "compressor" q || pyIn "improve" q

/-- One (predicate, handler) pair of the spec's §4.2 ordered table. -/
structure QRule where
  pred : String → Bool
  respond : Reading → List Reading → String

/-- Modelled from the spec: the §4.2 ordered predicate table, rules 1–11
(rule 12, the fallback, is the default of `firstMatch`). -/
def specRules : List QRule :=
  [⟨fun q => pyIn "efficiency" q && pyIn "what" q,
    fun row _ => "The current efficiency is " ++ row.efficiency.fmt2 ++ "."⟩,
   ⟨fun q => pyIn "why" q || pyIn "cause" q,
    fun row _ =>
      if row.efficiency.ltc (1/2) then
        "Efficiency is low likely due to small pressure difference (" ++
          fmt2 row.outlet_pressure ++ "-" ++ fmt2 row.inlet_pressure ++
          ") or high power usage (" ++ fmt2 row.power ++ " kW)."
      else "Efficiency is within normal range. No cause for concern."⟩,
   ⟨fun q => pyIn "first" q,
    fun _ df =>
      if (df.take 50).any (fun r => r.criticalFlag == "CRITICAL") then
        "The pump/compressor status was critical at " ++
          pyListStr (((df.take 50).filter (fun r => r.criticalFlag == "CRITICAL")).map
            Reading.timestamp) ++ " from top 50 row."
      else "Not found any critical in the data for pump/compressor."⟩,
   ⟨fun q => pyIn "last" q,
    fun _ df =>
      if (df.drop (df.length - 50)).any (fun r => r.criticalFlag == "CRITICAL") then
        "The pump/compressor status was critical at " ++
          pyListStr (((df.drop (df.length - 50)).filter
            (fun r => r.criticalFlag == "CRITICAL")).map Reading.timestamp) ++
          " from last 50 row."
      else "Not found any critical in the data for pump/compressor."⟩,
   ⟨fun q => pyIn "pressure" q,
    fun row _ => "Inlet Pressure: " ++ fmt2 row.inlet_pressure ++ " bar, Outlet Pressure: " ++
      fmt2 row.outlet_pressure ++ " bar."⟩,
   ⟨fun q => pyIn "flow" q,
    fun row _ => "Flow rate is " ++ fmt2 row.flow_rate ++ " m3/h."⟩,
   ⟨fun q => pyIn "power" q,
    fun row _ => "Power consumption is " ++ fmt2 row.power ++ " kW."⟩,
   ⟨fun q => pyIn "time" q,
    fun row _ => "The record timestamp is " ++ row.timestamp ++ "."⟩,
   ⟨fun q => pyIn "critical" q || pyIn "alert" q,
    fun row _ => "System status: " ++ row.criticalFlag ++ "."⟩,
   ⟨fun q => pyIn "pump" q || pyIn "compressor" q,
    fun row _ => "This system operates as a " ++
      (if row.efficiency.ltc 1 then "pump" else "compressor") ++ "."⟩,
   ⟨fun q => pyIn "improve" q,
    fun _ _ => "Reduce power usage or increase pressure delta to improve efficiency."⟩]

/-- First-match-wins evaluation of an ordered rule table; the fallback
string is returned when no predicate matches. -/
def firstMatch : List QRule → String → Reading → List Reading → String
  | [], _, _, _ => "Please ask about efficiency, pressure, flow, power, or status."
  | rule :: rest, q, row, df =>
    if rule.pred q then rule.respond row df else firstMatch rest q row df

/-- Modelled from the spec: `answer()` as §4.2 describes it — lower-case the
question, then evaluate the ordered predicate table first-match-wins. -/
def answerByTable (question : String) (row : Reading) (df : List Reading) : String :=
  firstMatch specRules (pyLower question) row df

/-! ### Helper lemmas -/

theorem toNat_ofNat_of_valid (n : ℕ) (h : n.isValidChar) : (Char.ofNat n).toNat = n := by
  unfold Char.ofNat
  rw [dif_pos h]
  rfl

theorem toLower_eq_self (c : Char) (h : ¬(c.toNat ≥ 65 ∧ c.toNat ≤ 90)) : c.toLower = c := by
  unfold Char.toLower
  exact if_neg h

theorem toLower_idem (c : Char) : c.toLower.toLower = c.toLower := by
  by_cases h : c.toNat ≥ 65 ∧ c.toNat ≤ 90
  · have h1 : c.toLower = Char.ofNat (c.toNat + 32) := by
      unfold Char.toLower
      exact if_pos h
    have hv : (c.toNat + 32).isValidChar := Or.inl (by omega)
    have h2 : c.toLower.toNat = c.toNat + 32 := by
      rw [h1]
      exact toNat_ofNat_of_valid _ hv
    exact toLower_eq_self _ (by omega)
  · rw [toLower_eq_self c h]
    exact toLower_eq_self c h

theorem lowerChar_idem (c : Char) : lowerChar (lowerChar c) = lowerChar c :=
  toLower_idem c

theorem pyLower_idem (s : String) : pyLower (pyLower s) = pyLower s := by
  simp [pyLower, List.map_map, Function.comp_def, lowerChar_idem]

/-- Sanity check: `pyLower` agrees with `String.toLower`. -/
theorem pyLower_eq_toLower (s : String) : pyLower s = s.toLower := by
  rw [pyLower, String.toLower, String.map_eq]
  rfl

theorem strLength_append (a b : String) : (a ++ b).length = a.length + b.length := by
  cases a
  cases b
  simp [String.length, String.instAppend, String.append]

theorem append_length_pos (a b : String) (h : 0 < a.length) : 0 < (a ++ b).length := by
  rw [strLength_append]
  omega

theorem ite_length_pos (c : Prop) [Decidable c] (x y : String) (hx : 0 < x.length)
    (hy : 0 < y.length) : 0 < (if c then x else y).length := by
  split_ifs
  · exact hx
  · exact hy

theorem generateRow_efficiency (r : RawReading) :
    (generateRow r).efficiency = rowEfficiency r := rfl

theorem generateRow_criticalFlag (r : RawReading) :
    (generateRow r).criticalFlag = criticalFlagOf (rowEfficiency r) r.inlet_pressure r.power := rfl

theorem calculateEfficiency_flag (a b c d : ℚ) :
    (calculateEfficiency a b c d).2.1 = manualFlag (manualEfficiency a b c d) := rfl

/-! ### Claim theorems -/

/-- C1: for every generated reading (with nonzero power, so that its
efficiency is the finite value `flow_rate * (outlet_pressure -
inlet_pressure) / power`), the status label is `CRITICAL` iff
`efficiency < 0.3` or `inlet_pressure < 2.2` or `power > 60`, and `OK`
otherwise; all three comparisons are strict, so a reading sitting exactly
on all three boundaries is labelled `OK`. -/
theorem C1_status_iff (r : RawReading) (h : r.power ≠ 0) :
    (generateRow r).efficiency =
      .finite (r.flow_rate * (r.outlet_pressure - r.inlet_pressure) / r.power) ∧
    ((generateRow r).criticalFlag = "CRITICAL" ↔
      (r.flow_rate * (r.outlet_pressure - r.inlet_pressure) / r.power < 3/10 ∨
        r.inlet_pressure < 22/10 ∨ r.power > 60)) ∧
    (r.flow_rate * (r.outlet_pressure - r.inlet_pressure) / r.power = 3/10 →
      r.inlet_pressure = 22/10 → r.power = 60 → (generateRow r).criticalFlag = "OK") := by
  have he : rowEfficiency r =
      .finite (r.flow_rate * (r.outlet_pressure - r.inlet_pressure) / r.power) := by
    rw [rowEfficiency, npDiv, if_pos h]
  refine ⟨he, ?_, ?_⟩
  · show criticalFlagOf (rowEfficiency r) r.inlet_pressure r.power = "CRITICAL" ↔ _
    rw [he, criticalFlagOf]
    simp only [NpFloat.ltc, decide_eq_true_eq]
    split_ifs with hc
    · exact iff_of_true rfl hc
    · exact iff_of_false (by decide) hc
  · intro h1 h2 h3
    show criticalFlagOf (rowEfficiency r) r.inlet_pressure r.power = "OK"
    rw [he, criticalFlagOf, if_neg]
    rintro (ha | ha | ha)
    · simp only [NpFloat.ltc, decide_eq_true_eq] at ha
      rw [h1] at ha
      exact lt_irrefl _ ha
    · rw [h2] at ha
      exact lt_irrefl _ ha
    · rw [h3] at ha
      exact lt_irrefl _ ha

/-- Witness for C1 at a reading exactly on all three boundaries
(`efficiency = 3 * (41/5 - 22/10) / 60 = 0.3`, `inlet_pressure = 2.2`,
`power = 60`): it is labelled `OK`. -/
theorem C1_status_iff_witness :
    (generateRow ⟨"t", 22/10, 41/5, 25, 80, 3, 60⟩).criticalFlag = "OK" :=
  (C1_status_iff ⟨"t", 22/10, 41/5, 25, 80, 3, 60⟩ (by norm_num)).2.2 (by norm_num) rfl rfl

/-- C2 counterexample: manual input `(inlet 2, outlet 6, flow 10, power 50)`
has `inlet_pressure < 2.2`, `efficiency = 0.8 ≥ 0.3` and `power ≤ 60`; the
§3 formula labels it `CRITICAL`, but the manual endpoint reports `OK` —
so the endpoint does not use the §3 status formula. -/
theorem C2_counterexample :
    (calculateEfficiency 2 6 10 50).2.1 = "OK" ∧
    (2 : ℚ) < 22/10 ∧ 3/10 ≤ manualEfficiency 2 6 10 50 ∧ (50 : ℚ) ≤ 60 ∧
    specStatus (manualEfficiency 2 6 10 50) 2 50 = "CRITICAL" := by
  refine ⟨?_, by norm_num, ?_, by norm_num, ?_⟩
  · rw [calculateEfficiency_flag, manualEfficiency, if_pos (by norm_num), manualFlag,
      if_neg (by norm_num)]
  · rw [manualEfficiency, if_pos (by norm_num)]
    norm_num
  · rw [specStatus, if_pos]
    right
    left
    norm_num

/-- C2 (amended): the manual endpoint's status label depends on the
efficiency alone — `CRITICAL` iff `efficiency < 0.3` — and in particular a
manual input with `inlet_pressure < 2.2` but `efficiency ≥ 0.3` and
`power ≤ 60` is labelled `OK`, not `CRITICAL`. -/
theorem C2_amended_eff_only (inlet_p outlet_p flow pw : ℚ) :
    ((calculateEfficiency inlet_p outlet_p flow pw).2.1 = "CRITICAL" ↔
      manualEfficiency inlet_p outlet_p flow pw < 3/10) ∧
    (inlet_p < 22/10 → 3/10 ≤ manualEfficiency inlet_p outlet_p flow pw → pw ≤ 60 →
      (calculateEfficiency inlet_p outlet_p flow pw).2.1 = "OK") := by
  constructor
  · show manualFlag (manualEfficiency inlet_p outlet_p flow pw) = "CRITICAL" ↔ _
    rw [manualFlag]
    split_ifs with hc
    · exact iff_of_true rfl hc
    · exact iff_of_false (by decide) hc
  · intro h1 h2 h3
    show manualFlag (manualEfficiency inlet_p outlet_p flow pw) = "OK"
    rw [manualFlag, if_neg (not_lt.mpr h2)]

/-- Witness for the amended C2 at the counterexample input. -/
theorem C2_amended_witness : (calculateEfficiency 2 6 10 50).2.1 = "OK" :=
  (C2_amended_eff_only 2 6 10 50).2 (by norm_num)
    (by rw [manualEfficiency, if_pos (by norm_num)]; norm_num) (by norm_num)

/-- C3 counterexample: the generator's division has no zero guard, so a
generated reading with `power = 0` (and positive `flow_rate * Δp`) gets the
non-finite efficiency `inf`, not `0`. -/
theorem C3_counterexample :
    (generateRow ⟨"t0", 5/2, 6, 25, 80, 10, 0⟩).power = 0 ∧
    (generateRow ⟨"t0", 5/2, 6, 25, 80, 10, 0⟩).efficiency = NpFloat.posInf ∧
    (generateRow ⟨"t0", 5/2, 6, 25, 80, 10, 0⟩).efficiency ≠ NpFloat.finite 0 := by
  refine ⟨rfl, ?_, ?_⟩
  · rw [generateRow_efficiency, rowEfficiency, npDiv]
    rw [if_neg (by norm_num), if_pos (by norm_num)]
  · rw [generateRow_efficiency, rowEfficiency, npDiv]
    rw [if_neg (by norm_num), if_pos (by norm_num)]
    simp

/-- C3 (amended): efficiency equals
`flow_rate * (outlet_pressure - inlet_pressure) / power` for every
generated reading and manual input with nonzero power; the manual path's
guarded division makes a `power = 0` manual input yield efficiency `0` and
status `CRITICAL`; but a generated reading with `power = 0` gets a
non-finite efficiency from the unguarded numpy division (never `0`; no
exception is raised either way). -/
theorem C3_amended (r : RawReading) (inlet_p outlet_p flow pw : ℚ) :
    (r.power ≠ 0 →
      (generateRow r).efficiency =
        .finite (r.flow_rate * (r.outlet_pressure - r.inlet_pressure) / r.power)) ∧
    (pw ≠ 0 → manualEfficiency inlet_p outlet_p flow pw = flow * (outlet_p - inlet_p) / pw) ∧
    (manualEfficiency inlet_p outlet_p flow 0 = 0 ∧
      (calculateEfficiency inlet_p outlet_p flow 0).2.1 = "CRITICAL") ∧
    (r.power = 0 → (generateRow r).efficiency ≠ NpFloat.finite 0) := by
  have hm0 : manualEfficiency inlet_p outlet_p flow 0 = 0 := by
    rw [manualEfficiency, if_neg (by simp)]
  refine ⟨fun h => ?_, fun h => ?_, ⟨hm0, ?_⟩, fun h0 => ?_⟩
  · show rowEfficiency r = _
    rw [rowEfficiency, npDiv, if_pos h]
  · rw [manualEfficiency, if_pos h]
  · show manualFlag (manualEfficiency inlet_p outlet_p flow 0) = "CRITICAL"
    rw [hm0, manualFlag, if_pos (by norm_num)]
  · show rowEfficiency r ≠ _
    rw [rowEfficiency, npDiv, h0, if_neg (by simp)]
    split_ifs <;> simp

/-- Witness for the amended C3 at concrete inputs: a generated reading and a
manual input with power 50, the manual `power = 0` case, and a generated
`power = 0` reading. -/
theorem C3_amended_witness :
    (generateRow ⟨"t", 5/2, 6, 25, 80, 10, 50⟩).efficiency =
      NpFloat.finite (10 * (6 - 5/2) / 50) ∧
    manualEfficiency 2 6 10 50 = 10 * (6 - 2) / 50 ∧
    manualEfficiency 2 6 10 0 = 0 ∧
    (calculateEfficiency 2 6 10 0).2.1 = "CRITICAL" ∧
    (generateRow ⟨"t0", 5/2, 6, 25, 80, 10, 0⟩).efficiency ≠ NpFloat.finite 0 :=
  ⟨(C3_amended ⟨"t", 5/2, 6, 25, 80, 10, 50⟩ 2 6 10 50).1 (by norm_num),
   (C3_amended ⟨"t", 5/2, 6, 25, 80, 10, 50⟩ 2 6 10 50).2.1 (by norm_num),
   (C3_amended ⟨"t", 5/2, 6, 25, 80, 10, 50⟩ 2 6 10 50).2.2.1.1,
   (C3_amended ⟨"t", 5/2, 6, 25, 80, 10, 50⟩ 2 6 10 50).2.2.1.2,
   (C3_amended ⟨"t0", 5/2, 6, 25, 80, 10, 0⟩ 2 6 10 50).2.2.2 rfl⟩

/-- C4: the explanation is a function of the efficiency value alone, and for
finite efficiency it falls into exactly one of four buckets with strict
boundaries: `< 0.3` very low, `[0.3, 0.5)` low, `> 2.0` high, `[0.5, 2.0]`
moderate; efficiency exactly `0.3` lands in the low bucket and exactly
`2.0` in the moderate bucket. -/
theorem C4_explanation_buckets :
    (∀ r1 r2 : Reading, r1.efficiency = r2.efficiency →
      readingExplanation r1 = readingExplanation r2) ∧
    (∀ q : ℚ,
      (q < 3/10 → explain_efficiency (.finite q) =
        "CRITICAL: Very low efficiency. Immediate investigation required.") ∧
      (3/10 ≤ q → q < 1/2 → explain_efficiency (.finite q) =
        "Low efficiency. Possible issues with pressure delta or power.") ∧
      (2 < q → explain_efficiency (.finite q) = "High efficiency. System optimal.") ∧
      (1/2 ≤ q → q ≤ 2 → explain_efficiency (.finite q) =
        "Moderate efficiency. Acceptable range.")) ∧
    explain_efficiency (.finite (3/10)) =
      "Low efficiency. Possible issues with pressure delta or power." ∧
    explain_efficiency (.finite 2) = "Moderate efficiency. Acceptable range." := by
  have heval : ∀ q : ℚ, explain_efficiency (.finite q) =
      if q < 3/10 then "CRITICAL: Very low efficiency. Immediate investigation required."
      else if q < 1/2 then "Low efficiency. Possible issues with pressure delta or power."
      else if 2 < q then "High efficiency. System optimal."
      else "Moderate efficiency. Acceptable range." := by
    intro q
    simp [explain_efficiency, NpFloat.ltc, NpFloat.gtc]
  refine ⟨fun r1 r2 h => by rw [readingExplanation, readingExplanation, h],
    fun q => ⟨fun h1 => ?_, fun h1 h2 => ?_, fun h1 => ?_, fun h1 h2 => ?_⟩, ?_, ?_⟩
  · rw [heval, if_pos h1]
  · rw [heval, if_neg (not_lt.mpr h1), if_pos h2]
  · rw [heval, if_neg (not_lt.mpr (by linarith)), if_neg (not_lt.mpr (by linarith)), if_pos h1]
  · rw [heval, if_neg (not_lt.mpr (by linarith)), if_neg (not_lt.mpr h1), if_neg (not_lt.mpr h2)]
  · rw [heval, if_neg (by norm_num), if_pos (by norm_num)]
  · rw [heval, if_neg (by norm_num), if_neg (by norm_num), if_neg (by norm_num)]

/-- Witness for C4 at one concrete value in each bucket. -/
theorem C4_explanation_buckets_witness :
    readingExplanation sampleReading = readingExplanation sampleReading ∧
    explain_efficiency (.finite (1/10)) =
      "CRITICAL: Very low efficiency. Immediate investigation required." ∧
    explain_efficiency (.finite (2/5)) =
      "Low efficiency. Possible issues with pressure delta or power." ∧
    explain_efficiency (.finite 3) = "High efficiency. System optimal." ∧
    explain_efficiency (.finite 1) = "Moderate efficiency. Acceptable range." :=
  ⟨C4_explanation_buckets.1 sampleReading sampleReading rfl,
   (C4_explanation_buckets.2.1 (1/10)).1 (by norm_num),
   (C4_explanation_buckets.2.1 (2/5)).2.1 (by norm_num) (by norm_num),
   (C4_explanation_buckets.2.1 3).2.2.1 (by norm_num),
   (C4_explanation_buckets.2.1 1).2.2.2 (by norm_num) (by norm_num)⟩

/-- C5: the query engine is total — every question (over any reading and
dataset) gets a non-empty answer, and a question matching none of the
keyword predicates gets the fixed fallback string. -/
theorem C5_total_nonempty (question : String) (row : Reading) (df : List Reading) :
    0 < (compressor_efficiency_prompt question row df).length ∧
    (matchesSomeRule (pyLower question) = false →
      compressor_efficiency_prompt question row df =
        "Please ask about efficiency, pressure, flow, power, or status.") := by
  constructor
  · rw [compressor_efficiency_prompt]
    unfold promptBody
    repeat' apply ite_length_pos
    all_goals repeat' apply append_length_pos
    all_goals decide
  · intro h
    simp only [matchesSomeRule, Bool.or_eq_false_iff] at h
    obtain ⟨⟨⟨⟨⟨⟨⟨⟨⟨⟨⟨⟨⟨h1, h2⟩, h3⟩, h4⟩, h5⟩, h6⟩, h7⟩, h8⟩, h9⟩, h10⟩, h11⟩,
      h12⟩, h13⟩, h14⟩ := h
    rw [compressor_efficiency_prompt]
    unfold promptBody
    simp [h1, h2, h3, h4, h5, h6, h7, h8, h9, h10, h11, h12, h13, h14]

/-- Witness for C5 at the keyword-free question `"hello"`. -/
theorem C5_total_nonempty_witness :
    0 < (compressor_efficiency_prompt "hello" sampleReading []).length ∧
    compressor_efficiency_prompt "hello" sampleReading [] =
      "Please ask about efficiency, pressure, flow, power, or status." :=
  ⟨(C5_total_nonempty "hello" sampleReading []).1,
   (C5_total_nonempty "hello" sampleReading []).2 (by decide)⟩

/-- C6: the engine is exactly the §4.2 ordered table evaluated
first-match-wins, and the question `"why is efficiency critical"` is
answered by rule 2 (the why/cause handler), not by rule 9 (critical/alert). -/
theorem C6_rule_order (question : String) (row : Reading) (df : List Reading) :
    compressor_efficiency_prompt question row df = answerByTable question row df ∧
    compressor_efficiency_prompt "why is efficiency critical" row df =
      (if row.efficiency.ltc (1/2) then
        "Efficiency is low likely due to small pressure difference (" ++
          fmt2 row.outlet_pressure ++ "-" ++ fmt2 row.inlet_pressure ++
          ") or high power usage (" ++ fmt2 row.power ++ " kW)."
      else "Efficiency is within normal range. No cause for concern.") := by
  constructor
  · rfl
  · have e1 : (pyIn "efficiency" (pyLower "why is efficiency critical") &&
        pyIn "what" (pyLower "why is efficiency critical")) = false := by decide
    have e2 : pyIn "why" (pyLower "why is efficiency critical") = true := by decide
    rw [compressor_efficiency_prompt, promptBody]
    simp [e1, e2]

/-- C7 counterexample: when the scanned window has no CRITICAL entry the
engine answers `"Not found any critical in the data for pump/compressor."`,
not the spec's `"no critical status found."`. -/
theorem C7_counterexample :
    compressor_efficiency_prompt "first" sampleReading [] =
      "Not found any critical in the data for pump/compressor." ∧
    "Not found any critical in the data for pump/compressor." ≠
      "no critical status found." := by
  constructor
  · decide
  · decide

/-- C7 (amended): a question containing `"first"` that reaches rule 3 scans
the first 50 dataset entries (dataset order, most-recent-first): if any is
CRITICAL, the answer lists the timestamps of all CRITICAL entries of that
window; otherwise the answer is
`"Not found any critical in the data for pump/compressor."`; the rule for
`"last"` behaves the same over the last 50 entries (with `"from last 50
row."` in place of `"from top 50 row."`). -/
theorem C7_window_scan (question : String) (row : Reading) (df : List Reading)
    (h1 : (pyIn "efficiency" (pyLower question) && pyIn "what" (pyLower question)) = false)
    (h2 : pyIn "why" (pyLower question) = false)
    (h3 : pyIn "cause" (pyLower question) = false) :
    (pyIn "first" (pyLower question) = true →
      compressor_efficiency_prompt question row df =
        if (df.take 50).any (fun r => r.criticalFlag == "CRITICAL") then
          "The pump/compressor status was critical at " ++
            pyListStr (((df.take 50).filter (fun r => r.criticalFlag == "CRITICAL")).map
              Reading.timestamp) ++ " from top 50 row."
        else "Not found any critical in the data for pump/compressor.") ∧
    (pyIn "first" (pyLower question) = false → pyIn "last" (pyLower question) = true →
      compressor_efficiency_prompt question row df =
        if (df.drop (df.length - 50)).any (fun r => r.criticalFlag == "CRITICAL") then
          "The pump/compressor status was critical at " ++
            pyListStr (((df.drop (df.length - 50)).filter
              (fun r => r.criticalFlag == "CRITICAL")).map Reading.timestamp) ++
            " from last 50 row."
        else "Not found any critical in the data for pump/compressor.") := by
  have g1 : ¬((pyIn "efficiency" (pyLower question) && pyIn "what" (pyLower question)) = true) := by
    simp [h1]
  have g2 : ¬((pyIn "why" (pyLower question) || pyIn "cause" (pyLower question)) = true) := by
    simp [h2, h3]
  constructor
  · intro hf
    rw [compressor_efficiency_prompt, promptBody, if_neg g1, if_neg g2, if_pos hf]
  · intro hf hl
    rw [compressor_efficiency_prompt, promptBody, if_neg g1, if_neg g2,
      if_neg (by simp [hf]), if_pos hl]

/-- Witness for the amended C7: a `"first"` question over a dataset whose
window holds one CRITICAL entry, and a `"last"` question over an empty one. -/
theorem C7_window_scan_witness :
    compressor_efficiency_prompt "first" sampleReading [sampleReading2] =
      "The pump/compressor status was critical at " ++ pyListStr ["2026-01-01 00:10:00"] ++
        " from top 50 row." ∧
    compressor_efficiency_prompt "last" sampleReading [] =
      "Not found any critical in the data for pump/compressor." := by
  constructor
  · rw [(C7_window_scan "first" sampleReading [sampleReading2] (by decide) (by decide)
      (by decide)).1 (by decide)]
    decide
  · rw [(C7_window_scan "last" sampleReading [] (by decide) (by decide)
      (by decide)).2 (by decide) (by decide)]
    decide

/-- C8: question matching is case-insensitive — the answer to a question
equals the answer to its lowercased form, because the question is lowered
before any predicate is tested. -/
theorem C8_case_insensitive (question : String) (row : Reading) (df : List Reading) :
    compressor_efficiency_prompt question row df =
      compressor_efficiency_prompt (pyLower question) row df := by
  rw [compressor_efficiency_prompt, compressor_efficiency_prompt, pyLower_idem]

/-- C9: a question whose lowercased form contains `"efficiency"` but none
of the other tested keywords falls through to the fallback string, because
rule 1 requires `"what"` as well. -/
theorem C9_bare_efficiency_fallback (question : String) (row : Reading) (df : List Reading)
    (h0 : pyIn "efficiency" (pyLower question) = true)
    (h1 : pyIn "what" (pyLower question) = false)
    (h2 : pyIn "why" (pyLower question) = false)
    (h3 : pyIn "cause" (pyLower question) = false)
    (h4 : pyIn "first" (pyLower question) = false)
    (h5 : pyIn "last" (pyLower question) = false)
    (h6 : pyIn "pressure" (pyLower question) = false)
    (h7 : pyIn "flow" (pyLower question) = false)
    (h8 : pyIn "power" (pyLower question) = false)
    (h9 : pyIn "time" (pyLower question) = false)
    (h10 : pyIn "critical" (pyLower question) = false)
    (h11 : pyIn "alert" (pyLower question) = false)
    (h12 : pyIn "pump" (pyLower question) = false)
    (h13 : pyIn "compressor" (pyLower question) = false)
    (h14 : pyIn "improve" (pyLower question) = false) :
    compressor_efficiency_prompt question row df =
      "Please ask about efficiency, pressure, flow, power, or status." := by
  rw [compressor_efficiency_prompt, promptBody]
  simp [h0, h1, h2, h3, h4, h5, h6, h7, h8, h9, h10, h11, h12, h13, h14]

/-- Witness for C9 at the bare question `"efficiency?"`. -/
theorem C9_bare_efficiency_fallback_witness :
    compressor_efficiency_prompt "efficiency?" sampleReading [] =
      "Please ask about efficiency, pressure, flow, power, or status." :=
  C9_bare_efficiency_fallback "efficiency?" sampleReading [] (by decide) (by decide)
    (by decide) (by decide) (by decide) (by decide) (by decide) (by decide) (by decide)
    (by decide) (by decide) (by decide) (by decide) (by decide) (by decide)

/-- C10: a question answered by the `"first"` or `"last"` rule gets an
answer that depends only on the question and the dataset — changing the
focus reading leaves the answer unchanged. -/
theorem C10_window_rules_ignore_focus (question : String) (row1 row2 : Reading)
    (df : List Reading)
    (h1 : (pyIn "efficiency" (pyLower question) && pyIn "what" (pyLower question)) = false)
    (h2 : pyIn "why" (pyLower question) = false)
    (h3 : pyIn "cause" (pyLower question) = false)
    (h : pyIn "first" (pyLower question) = true ∨ pyIn "last" (pyLower question) = true) :
    compressor_efficiency_prompt question row1 df =
      compressor_efficiency_prompt question row2 df := by
  have g1 : ¬((pyIn "efficiency" (pyLower question) && pyIn "what" (pyLower question)) = true) := by
    simp [h1]
  have g2 : ¬((pyIn "why" (pyLower question) || pyIn "cause" (pyLower question)) = true) := by
    simp [h2, h3]
  by_cases hf : pyIn "first" (pyLower question) = true
  · have key : ∀ r0 : Reading, compressor_efficiency_prompt question r0 df =
        (if (df.take 50).any (fun r => r.criticalFlag == "CRITICAL") then
          "The pump/compressor status was critical at " ++
            pyListStr (((df.take 50).filter (fun r => r.criticalFlag == "CRITICAL")).map
              Reading.timestamp) ++ " from top 50 row."
        else "Not found any critical in the data for pump/compressor.") := by
      intro r0
      rw [compressor_efficiency_prompt, promptBody, if_neg g1, if_neg g2, if_pos hf]
    rw [key row1, key row2]
  · have hl : pyIn "last" (pyLower question) = true := h.resolve_left hf
    have key : ∀ r0 : Reading, compressor_efficiency_prompt question r0 df =
        (if (df.drop (df.length - 50)).any (fun r => r.criticalFlag == "CRITICAL") then
          "The pump/compressor status was critical at " ++
            pyListStr (((df.drop (df.length - 50)).filter
              (fun r => r.criticalFlag == "CRITICAL")).map Reading.timestamp) ++
            " from last 50 row."
        else "Not found any critical in the data for pump/compressor.") := by
      intro r0
      rw [compressor_efficiency_prompt, promptBody, if_neg g1, if_neg g2, if_neg hf, if_pos hl]
    rw [key row1, key row2]

/-- Witness for C10: the `"first"` question answered against two different
focus readings gives the same answer. -/
theorem C10_window_rules_ignore_focus_witness :
    compressor_efficiency_prompt "first" sampleReading [] =
      compressor_efficiency_prompt "first" sampleReading2 [] :=
  C10_window_rules_ignore_focus "first" sampleReading sampleReading2 [] (by decide)
    (by decide) (by decide) (Or.inl (by decide))

end PumpDemo
